import Mathlib

/-!
# Verification of the restaurant-backend order workflow

A shallow embedding of the order, revenue and statistics endpoints of
`src/main.py` (FastAPI handlers written as parameterized SQL against a
relational store) together with the data model of `src/models.py`.

Modelling conventions:
* UUID primary keys become `Nat`; fresh ids are drawn from counters in the
  state (`next_order_id`, `next_order_item_id`).
* `NUMERIC` / Python `float` money amounts become `ℚ` (exact arithmetic);
  dates (`reservation_date`, `CAST(record_date AS DATE)`) become `Int`
  day numbers.
* Reservation `status` is the Pydantic
  `Literal['pending','confirmed','cancelled','completed','no_show']` enum.
* Each handler is a function from the committed database state and the
  request to `(Except ApiError response) × DB`, where the second component
  is the committed state after the call.  A `db.commit()` in the handler
  makes the pending writes part of that state; a `db.rollback()` discards
  only the writes since the last commit.  The commit points are placed
  exactly where `src/main.py` calls `db.commit()`.
* Timestamps (`created_at`, `updated_at`, `order_date`, `record_date` of a
  response) are irrelevant to every claim and are omitted.
-/

/-- Reservation status values, from the Pydantic `Literal` in
`models.py` (`ReservationBase.status`). -/
inductive ReservationStatus where
  | pending
  | confirmed
  | cancelled
  | completed
  | no_show
deriving Repr, DecidableEq

/-- A row of `menu_items` (fields relevant to the order/statistics flow). -/
structure MenuItem where
  id : Nat
  name : String
  category : String
  price : ℚ
deriving Repr, DecidableEq

/-- A row of `reservations` (fields relevant to the order/statistics flow). -/
structure Reservation where
  id : Nat
  status : ReservationStatus
  reservation_date : Int
deriving Repr, DecidableEq

/-- A row of `orders`. -/
structure Order where
  id : Nat
  reservation_id : Nat
  total_amount : ℚ
deriving Repr, DecidableEq

/-- A row of `order_items`. -/
structure OrderItem where
  id : Nat
  order_id : Nat
  menu_item_id : Nat
  quantity : Nat
  price_at_order : ℚ
  subtotal : ℚ
deriving Repr, DecidableEq

/-- A row of `revenue_records` (fields relevant to the summary endpoint;
`record_date` is already the `CAST(record_date AS DATE)` value). -/
structure RevenueRecord where
  id : Nat
  amount : ℚ
  record_date : Int
deriving Repr, DecidableEq

/-- The committed database state. -/
structure DB where
  menu_items : List MenuItem
  reservations : List Reservation
  orders : List Order
  order_items : List OrderItem
  revenue_records : List RevenueRecord
  next_order_id : Nat
  next_order_item_id : Nat
deriving Repr, DecidableEq

/-- `models.OrderItemCreate`: one requested line item. -/
structure OrderItemCreate where
  menu_item_id : Nat
  quantity : Nat
deriving Repr, DecidableEq

/-- `models.OrderCreate`: the request body of POST and PUT `/api/orders`. -/
structure OrderCreate where
  reservation_id : Nat
  items : List OrderItemCreate
deriving Repr, DecidableEq

/-- The error taxonomy raised by the handlers (`HTTPException` status). -/
inductive ApiError where
  | notFound (detail : String)
  | badRequest (detail : String)
  | conflict (detail : String)
  | internal (detail : String)
deriving Repr, DecidableEq

/-- HTTP status code of an error. -/
def ApiError.statusCode : ApiError → Nat
  | .notFound _ => 404
  | .badRequest _ => 400
  | .conflict _ => 409
  | .internal _ => 500

/-- HTTP status code of a handler outcome (the success code is passed in). -/
def responseStatus {α : Type} (okCode : Nat) : Except ApiError α → Nat
  | .ok _ => okCode
  | .error e => e.statusCode

/-- `models.OrderResponse` (timestamp fields omitted). -/
structure OrderResponse where
  id : Nat
  reservation_id : Nat
  total_amount : ℚ
  items : List OrderItem
deriving Repr, DecidableEq

/-- `SELECT status FROM reservations WHERE id = :reservation_id`
(`scalar_one_or_none`). -/
def findReservation (db : DB) (rid : Nat) : Option Reservation :=
  db.reservations.find? (fun r => r.id == rid)

/-- `SELECT id FROM orders WHERE reservation_id = :reservation_id`
(`scalar_one_or_none`), returning the full row for convenience. -/
def findOrderByReservation (db : DB) (rid : Nat) : Option Order :=
  db.orders.find? (fun o => o.reservation_id == rid)

/-- `SELECT price FROM menu_items WHERE id = :menu_item_id`
(`scalar_one_or_none`). -/
def findMenuItemPrice (db : DB) (mid : Nat) : Option ℚ :=
  (db.menu_items.find? (fun m => m.id == mid)).map (fun m => m.price)

/-- Parameters accumulated into `order_items_to_insert` by the pricing loop
(step 4 of `create_order` / step 3 of `update_order`). -/
structure OrderItemParams where
  order_id : Nat
  menu_item_id : Nat
  quantity : Nat
  price_at_order : ℚ
  subtotal : ℚ
deriving Repr, DecidableEq

/-- Step 4 of `create_order` (also step 3 of `update_order`): for each
requested item resolve the current menu price, failing with 404 when the
menu item is missing; compute `subtotal = price * quantity` and accumulate
the running `total_amount`. -/
def priceItems (db : DB) (oid : Nat) :
    List OrderItemCreate → Except ApiError (ℚ × List OrderItemParams)
  | [] => .ok (0, [])
  | item :: rest =>
    match findMenuItemPrice db item.menu_item_id with
    | none => .error (.notFound "Menu item not found.")
    | some price =>
      match priceItems db oid rest with
      | .error e => .error e
      | .ok (t, ps) =>
        .ok (price * (item.quantity : ℚ) + t,
          { order_id := oid, menu_item_id := item.menu_item_id,
            quantity := item.quantity, price_at_order := price,
            subtotal := price * (item.quantity : ℚ) } :: ps)

/-- Step 5: the batch `INSERT INTO order_items ... RETURNING ...`.  Each
row receives a fresh id; returns the new state and the returned rows. -/
def insertOrderItems (db : DB) : List OrderItemParams → DB × List OrderItem
  | [] => (db, [])
  | p :: ps =>
    let it : OrderItem :=
      { id := db.next_order_item_id, order_id := p.order_id,
        menu_item_id := p.menu_item_id, quantity := p.quantity,
        price_at_order := p.price_at_order, subtotal := p.subtotal }
    let db1 : DB := { db with
      order_items := db.order_items ++ [it],
      next_order_item_id := db.next_order_item_id + 1 }
    let rec_result := insertOrderItems db1 ps
    (rec_result.1, it :: rec_result.2)

/-- Step 6: `UPDATE orders SET total_amount = :total_amount WHERE id = :order_id`. -/
def updateOrderTotal (db : DB) (oid : Nat) (t : ℚ) : DB :=
  { db with orders :=
      db.orders.map (fun o => if o.id == oid then { o with total_amount := t } else o) }

/-- Step 3 of `create_order`: `INSERT INTO orders (reservation_id) VALUES ...`,
creating the order shell (the `total_amount` column defaults to 0), followed
by the `db.commit()` on the very next line of the handler. -/
def insertOrderShell (db : DB) (rid : Nat) : DB :=
  { db with
    orders := db.orders ++ [{ id := db.next_order_id, reservation_id := rid,
                              total_amount := 0 }],
    next_order_id := db.next_order_id + 1 }

/-- `POST /api/orders` (`create_order` in `main.py`).  Returns the HTTP
outcome and the committed state after the call.  The handler commits right
after inserting the order shell and again after inserting the items and
updating the total; an `HTTPException` raised in between rolls back only to
the first commit. -/
def create_order (db : DB) (oc : OrderCreate) :
    Except ApiError OrderResponse × DB :=
  match findReservation db oc.reservation_id with
  | none => (.error (.notFound "Reservation not found"), db)
  | some r =>
    if r.status ≠ ReservationStatus.completed then
      (.error (.badRequest "Order can only be created for completed reservations."), db)
    else
      match findOrderByReservation db oc.reservation_id with
      | some _ =>
        (.error (.conflict "An order already exists for this reservation."), db)
      | none =>
        let newOrderId := db.next_order_id
        let db1 := insertOrderShell db oc.reservation_id
        match priceItems db1 newOrderId oc.items with
        | .error e => (.error e, db1)
        | .ok (total, ps) =>
          let ins := insertOrderItems db1 ps
          let db3 := updateOrderTotal ins.1 newOrderId total
          (.ok { id := newOrderId, reservation_id := oc.reservation_id,
                 total_amount := total, items := ins.2 }, db3)

/-- `PUT /api/orders/{order_id}` (`update_order` in `main.py`).  The delete
of the existing line items is committed on its own before the new list is
priced; a failure afterwards rolls back only to that commit. -/
def update_order (db : DB) (oid : Nat) (ou : OrderCreate) :
    Except ApiError OrderResponse × DB :=
  match db.orders.find? (fun o => o.id == oid) with
  | none => (.error (.notFound "Order not found"), db)
  | some ord =>
    if ord.reservation_id ≠ ou.reservation_id then
      (.error (.badRequest "Reservation ID mismatch for this order."), db)
    else
      let db1 : DB := { db with
        order_items := db.order_items.filter (fun it => it.order_id != oid) }
      match priceItems db1 oid ou.items with
      | .error e => (.error e, db1)
      | .ok (total, ps) =>
        let ins := insertOrderItems db1 ps
        let db3 := updateOrderTotal ins.1 oid total
        (.ok { id := oid, reservation_id := ord.reservation_id,
               total_amount := total, items := ins.2 }, db3)

/-- `GET /api/reservations/{reservation_id}/order`
(`get_order_by_reservation_id` in `main.py`): returns `none` (HTTP 200 with
a `null` body) when no order references the reservation, otherwise the
order with its items; it raises no `HTTPException` at all. -/
def get_order_by_reservation_id (db : DB) (rid : Nat) :
    Except ApiError (Option OrderResponse) :=
  match findOrderByReservation db rid with
  | none => .ok none
  | some o =>
    .ok (some { id := o.id, reservation_id := o.reservation_id,
                total_amount := o.total_amount,
                items := db.order_items.filter (fun it => it.order_id == o.id) })

/-- The optional inclusive date-range filter
(`record_date >= :start_date` / `record_date <= :end_date`). -/
def inDateRange (d : Int) (sd ed : Option Int) : Bool :=
  (match sd with | none => true | some s => decide (s ≤ d)) &&
  (match ed with | none => true | some e => decide (d ≤ e))

/-- SQL `SUM`: `NULL` (here `none`) over the empty set, the sum otherwise. -/
def sqlSum (l : List ℚ) : Option ℚ :=
  match l with
  | [] => none
  | _ => some l.sum

/-- `GET /api/revenue/summary` (`get_total_revenue_summary` in `main.py`):
`SELECT SUM(amount) FROM revenue_records` with the optional date filter;
the handler maps a `NULL` scalar to `0.00`. -/
def get_total_revenue_summary (db : DB) (sd ed : Option Int) : ℚ :=
  let matching := db.revenue_records.filter
    (fun rr => inDateRange rr.record_date sd ed)
  match sqlSum (matching.map (fun rr => rr.amount)) with
  | none => 0
  | some t => t

/-- One row of the `GET /api/stats/most-sold-items` response. -/
structure MostSoldRow where
  menu_item_id : Nat
  name : String
  category : String
  price : ℚ
  total_quantity : Nat
deriving Repr, DecidableEq

/-- The `FROM order_items oi JOIN menu_items mi ... JOIN orders o ...
JOIN reservations r ...` inner join, with the optional
`r.reservation_date` range filter. -/
def joinedSoldRows (db : DB) (sd ed : Option Int) :
    List (OrderItem × MenuItem) :=
  db.order_items.filterMap (fun oi =>
    match db.menu_items.find? (fun m => m.id == oi.menu_item_id) with
    | none => none
    | some mi =>
      match db.orders.find? (fun o => o.id == oi.order_id) with
      | none => none
      | some o =>
        match db.reservations.find? (fun r => r.id == o.reservation_id) with
        | none => none
        | some r =>
          if inDateRange r.reservation_date sd ed then some (oi, mi) else none)

/-- `GROUP BY oi.menu_item_id, mi.name, mi.category, mi.price` with
`SUM(oi.quantity)`: one row per distinct joined menu item. -/
def mostSoldGroups (db : DB) (sd ed : Option Int) : List MostSoldRow :=
  let rows := joinedSoldRows db sd ed
  (rows.map (fun p => p.2)).dedup.map (fun mi =>
    { menu_item_id := mi.id, name := mi.name, category := mi.category,
      price := mi.price,
      total_quantity :=
        ((rows.filter (fun p => p.2 == mi)).map (fun p => p.1.quantity)).sum })

/-- `ORDER BY total_quantity DESC, mi.name ASC`: `a` may precede `b`. -/
def msOrder (a b : MostSoldRow) : Prop :=
  b.total_quantity < a.total_quantity ∨
    (a.total_quantity = b.total_quantity ∧ a.name ≤ b.name)

instance : DecidableRel msOrder := fun a b => by
  unfold msOrder; infer_instance

instance : IsTotal MostSoldRow msOrder where
  total a b := by
    unfold msOrder
    rcases Nat.lt_trichotomy a.total_quantity b.total_quantity with h | h | h
    · exact Or.inr (Or.inl h)
    · rcases le_total a.name b.name with hn | hn
      · exact Or.inl (Or.inr ⟨h, hn⟩)
      · exact Or.inr (Or.inr ⟨h.symm, hn⟩)
    · exact Or.inl (Or.inl h)

instance : IsTrans MostSoldRow msOrder where
  trans a b c hab hbc := by
    unfold msOrder at hab hbc ⊢
    rcases hab with h1 | ⟨h1, h1n⟩
    · rcases hbc with h2 | ⟨h2, _⟩
      · exact Or.inl (h2.trans h1)
      · exact Or.inl (h2 ▸ h1)
    · rcases hbc with h2 | ⟨h2, h2n⟩
      · exact Or.inl (h1 ▸ h2)
      · exact Or.inr ⟨h1.trans h2, le_trans h1n h2n⟩

/-- `GET /api/stats/most-sold-items` (`get_most_sold_items` in `main.py`):
group, sum, sort by quantity descending then name ascending, `LIMIT 20`. -/
def get_most_sold_items (db : DB) (sd ed : Option Int) : List MostSoldRow :=
  (List.insertionSort msOrder (mostSoldGroups db sd ed)).take 20

/-- `PUT /api/reservations/{reservation_id}` (`update_reservation` in
`main.py`) restricted to a body supplying only `status` (any of the five
literal values is accepted; no transition constraint is checked). -/
def update_reservation_status (db : DB) (rid : Nat) (st : ReservationStatus) :
    Except ApiError Unit × DB :=
  if (db.reservations.find? (fun r => r.id == rid)).isSome then
    (.ok (), { db with reservations :=
        db.reservations.map (fun r => if r.id == rid then { r with status := st } else r) })
  else
    (.error (.notFound "Reservation not found"), db)


/-! ## Concrete states used to exercise the endpoints -/

/-- A completed reservation with an empty menu and no orders: any line item
will fail its price lookup. -/
def c1db : DB :=
  { menu_items := [], reservations := [⟨1, .completed, 0⟩], orders := [],
    order_items := [], revenue_records := [], next_order_id := 5,
    next_order_item_id := 50 }

/-- One menu item, one pending (not completed) reservation. -/
def c3db : DB :=
  { menu_items := [⟨1, "X", "m", 12⟩], reservations := [⟨1, .pending, 0⟩],
    orders := [], order_items := [], revenue_records := [],
    next_order_id := 10, next_order_item_id := 100 }

/-- One menu item, one completed reservation, no order yet. -/
def c4db0 : DB :=
  { menu_items := [⟨1, "X", "m", 12⟩], reservations := [⟨1, .completed, 0⟩],
    orders := [], order_items := [], revenue_records := [],
    next_order_id := 10, next_order_item_id := 100 }

/-- The order-creation request used twice in the conflict scenario. -/
def c4req : OrderCreate := ⟨1, [⟨1, 1⟩]⟩

/-- The state reached from `c4db0` by a successful order creation followed
by the admin putting the reservation's status back to `pending`
(`PUT /api/reservations/1` with body `{status: "pending"}`). -/
def c4db2 : DB :=
  (update_reservation_status (create_order c4db0 c4req).2 1
    ReservationStatus.pending).2

/-- Like the final conflict-scenario state but with the reservation still
`completed`. -/
def c4wdb : DB :=
  { menu_items := [⟨1, "X", "m", 12⟩], reservations := [⟨1, .completed, 0⟩],
    orders := [⟨10, 1, 12⟩], order_items := [⟨100, 10, 1, 1, 12, 12⟩],
    revenue_records := [], next_order_id := 11, next_order_item_id := 101 }

/-- An existing order (id 10, reservation 1) with one persisted line item. -/
def c5db : DB :=
  { menu_items := [⟨1, "X", "m", 12⟩], reservations := [⟨1, .completed, 0⟩],
    orders := [⟨10, 1, 24⟩], order_items := [⟨100, 10, 1, 2, 12, 24⟩],
    revenue_records := [], next_order_id := 11, next_order_item_id := 101 }

/-- Fresh state for a successful single-item order creation. -/
def wdb : DB :=
  { menu_items := [⟨1, "X", "main", 12⟩, ⟨2, "Y", "side", 5⟩],
    reservations := [⟨1, .completed, 0⟩],
    orders := [], order_items := [], revenue_records := [],
    next_order_id := 10, next_order_item_id := 100 }

/-- A one-line-item creation request against `wdb`. -/
def wreq : OrderCreate := ⟨1, [⟨1, 1⟩]⟩

/-- The response returned by `create_order wdb wreq`. -/
def wresp : OrderResponse :=
  { id := 10, reservation_id := 1, total_amount := 12,
    items := [⟨100, 10, 1, 1, 12, 12⟩] }

/-- The committed state after `create_order wdb wreq`. -/
def wdb2 : DB :=
  { menu_items := [⟨1, "X", "main", 12⟩, ⟨2, "Y", "side", 5⟩],
    reservations := [⟨1, .completed, 0⟩],
    orders := [⟨10, 1, 12⟩],
    order_items := [⟨100, 10, 1, 1, 12, 12⟩],
    revenue_records := [],
    next_order_id := 11, next_order_item_id := 101 }

/-- A single revenue record dated day 5 (outside the window [10, 20]). -/
def c7db : DB :=
  { menu_items := [], reservations := [], orders := [], order_items := [],
    revenue_records := [⟨1, 42, 5⟩], next_order_id := 1,
    next_order_item_id := 1 }

/-- A state with no orders at all. -/
def c9db : DB :=
  { menu_items := [], reservations := [⟨1, .completed, 0⟩], orders := [],
    order_items := [], revenue_records := [], next_order_id := 1,
    next_order_item_id := 1 }

/-- Statistics example: menu items A, B, C; the in-window reservation (day 5)
sold A 4+6 = 10, B 10 and C 5; a second reservation on day 11 sold C 100 and
must be excluded by the window [0, 10]. -/
def msdb : DB :=
  { menu_items := [⟨1, "A", "m", 3⟩, ⟨2, "B", "m", 4⟩, ⟨3, "C", "m", 5⟩],
    reservations := [⟨1, .completed, 5⟩, ⟨2, .completed, 11⟩],
    orders := [⟨10, 1, 0⟩, ⟨11, 2, 0⟩],
    order_items := [⟨100, 10, 3, 5, 5, 25⟩, ⟨101, 10, 2, 10, 4, 40⟩,
                    ⟨102, 10, 1, 4, 3, 12⟩, ⟨103, 10, 1, 6, 3, 18⟩,
                    ⟨104, 11, 3, 100, 5, 500⟩],
    revenue_records := [], next_order_id := 12, next_order_item_id := 105 }

/-! ## Helper lemmas about the pricing and insertion steps -/

/-- On success, `priceItems` returns the sum of the computed subtotals as the
total, each parameter snapshots the current menu price with
`subtotal = price_at_order * quantity` and carries the target order id, and
the (menu item, quantity) pairs are exactly the requested ones, in order. -/
theorem priceItems_ok_spec (db : DB) (oid : Nat) :
    ∀ (items : List OrderItemCreate) (t : ℚ) (ps : List OrderItemParams),
      priceItems db oid items = .ok (t, ps) →
      t = (ps.map (fun p => p.subtotal)).sum
      ∧ (∀ p ∈ ps, p.subtotal = p.price_at_order * (p.quantity : ℚ)
          ∧ findMenuItemPrice db p.menu_item_id = some p.price_at_order
          ∧ p.order_id = oid)
      ∧ ps.map (fun p => (p.menu_item_id, p.quantity))
          = items.map (fun i => (i.menu_item_id, i.quantity)) := by
  intro items
  induction items with
  | nil =>
    intro t ps h
    simp only [priceItems, Except.ok.injEq, Prod.mk.injEq] at h
    obtain ⟨ht, hps⟩ := h
    subst ht; subst hps
    simp
  | cons item rest ih =>
    intro t ps h
    simp only [priceItems] at h
    cases hE : findMenuItemPrice db item.menu_item_id with
    | none => rw [hE] at h; cases h
    | some price =>
      rw [hE] at h
      cases hR : priceItems db oid rest with
      | error e => rw [hR] at h; cases h
      | ok tr =>
        rw [hR] at h
        obtain ⟨t0, ps0⟩ := tr
        simp only [Except.ok.injEq, Prod.mk.injEq] at h
        obtain ⟨ht, hps⟩ := h
        obtain ⟨ihT, ihPt, ihMap⟩ := ih t0 ps0 hR
        subst ht
        subst hps
        refine ⟨by simpa using ihT, ?_, by simpa using ihMap⟩
        intro p hp
        rcases List.mem_cons.mp hp with hfst | hrest
        · subst hfst
          exact ⟨rfl, hE, rfl⟩
        · exact ihPt p hrest

/-- The batch insert emits one row per parameter, preserving all payload
fields in order (only fresh ids are added). -/
theorem insertOrderItems_fields :
    ∀ (ps : List OrderItemParams) (db : DB),
      ((insertOrderItems db ps).2).map
          (fun it => (it.order_id, it.menu_item_id, it.quantity,
                      it.price_at_order, it.subtotal))
        = ps.map (fun p => (p.order_id, p.menu_item_id, p.quantity,
                            p.price_at_order, p.subtotal))
  | [], _ => rfl
  | p :: ps, db => by
    simp only [insertOrderItems, List.map_cons, List.cons.injEq]
    exact ⟨trivial, insertOrderItems_fields ps _⟩

/-- The batch insert appends exactly the returned rows to `order_items` and
touches no other table. -/
theorem insertOrderItems_state :
    ∀ (ps : List OrderItemParams) (db : DB),
      (insertOrderItems db ps).1.order_items
          = db.order_items ++ (insertOrderItems db ps).2
      ∧ (insertOrderItems db ps).1.orders = db.orders
      ∧ (insertOrderItems db ps).1.menu_items = db.menu_items
      ∧ (insertOrderItems db ps).1.reservations = db.reservations
      ∧ (insertOrderItems db ps).1.revenue_records = db.revenue_records
  | [], db => by simp [insertOrderItems]
  | p :: ps, db => by
    have ih := insertOrderItems_state ps
      { db with
        order_items := db.order_items ++
          [{ id := db.next_order_item_id, order_id := p.order_id,
             menu_item_id := p.menu_item_id, quantity := p.quantity,
             price_at_order := p.price_at_order, subtotal := p.subtotal }],
        next_order_item_id := db.next_order_item_id + 1 }
    simp only [insertOrderItems]
    refine ⟨?_, ih.2⟩
    rw [ih.1]
    simp

/-- Projection of `insertOrderItems_fields` onto the owning order id. -/
theorem insertOrderItems_order_ids (ps : List OrderItemParams) (db : DB) :
    ((insertOrderItems db ps).2).map (fun it => it.order_id)
      = ps.map (fun p => p.order_id) := by
  have h := congrArg (List.map (fun x : Nat × Nat × Nat × ℚ × ℚ => x.1))
    (insertOrderItems_fields ps db)
  simpa [List.map_map, Function.comp] using h

/-- Projection of `insertOrderItems_fields` onto (menu item, quantity). -/
theorem insertOrderItems_menu_qty (ps : List OrderItemParams) (db : DB) :
    ((insertOrderItems db ps).2).map (fun it => (it.menu_item_id, it.quantity))
      = ps.map (fun p => (p.menu_item_id, p.quantity)) := by
  have h := congrArg
    (List.map (fun x : Nat × Nat × Nat × ℚ × ℚ => (x.2.1, x.2.2.1)))
    (insertOrderItems_fields ps db)
  simpa [List.map_map, Function.comp] using h

/-- Projection of `insertOrderItems_fields` onto the subtotal. -/
theorem insertOrderItems_subtotals (ps : List OrderItemParams) (db : DB) :
    ((insertOrderItems db ps).2).map (fun it => it.subtotal)
      = ps.map (fun p => p.subtotal) := by
  have h := congrArg
    (List.map (fun x : Nat × Nat × Nat × ℚ × ℚ => x.2.2.2.2))
    (insertOrderItems_fields ps db)
  simpa [List.map_map, Function.comp] using h

/-- Every inserted row's payload comes from some parameter. -/
theorem insertOrderItems_pointwise :
    ∀ (ps : List OrderItemParams) (db : DB),
      ∀ it ∈ (insertOrderItems db ps).2, ∃ p ∈ ps,
        it.order_id = p.order_id ∧ it.menu_item_id = p.menu_item_id
        ∧ it.quantity = p.quantity ∧ it.price_at_order = p.price_at_order
        ∧ it.subtotal = p.subtotal
  | [], _ => by simp [insertOrderItems]
  | p :: ps, db => by
    intro it hit
    simp only [insertOrderItems, List.mem_cons] at hit
    rcases hit with h | h
    · subst h
      exact ⟨p, List.mem_cons_self p ps, rfl, rfl, rfl, rfl, rfl⟩
    · obtain ⟨q, hq, hfields⟩ := insertOrderItems_pointwise ps _ it h
      exact ⟨q, List.mem_cons_of_mem p hq, hfields⟩

/-! ## Claim theorems: precondition checks (C3, C4, C6, C9, C7) -/

/-- C3: for every order-creation request whose reservation exists but has
status different from `completed`, the operation fails with the InvalidState
error (HTTP 400) and writes nothing: the committed state is unchanged, so no
order row and no order_items rows are created. -/
theorem create_order_rejects_uncompleted (db : DB) (oc : OrderCreate)
    (r : Reservation)
    (hr : findReservation db oc.reservation_id = some r)
    (hst : r.status ≠ ReservationStatus.completed) :
    create_order db oc =
      (.error (.badRequest "Order can only be created for completed reservations."), db)
    ∧ responseStatus 201 (create_order db oc).1 = 400 := by
  have h : create_order db oc =
      (.error (.badRequest "Order can only be created for completed reservations."), db) := by
    simp only [create_order, hr]
    rw [if_pos hst]
  exact ⟨h, by rw [h]; rfl⟩

/-- C4 (amended): for a reservation that already has an order *and still has
status `completed`*, a second creation request fails with Conflict (HTTP 409)
and the committed state — in particular the first order and its items — is
unchanged.  (When the reservation's status was changed away from `completed`
after the first order, the request instead fails at the status check, see the
counterexample.) -/
theorem create_order_conflict_on_existing_order (db : DB) (oc : OrderCreate)
    (r : Reservation) (o : Order)
    (hr : findReservation db oc.reservation_id = some r)
    (hst : r.status = ReservationStatus.completed)
    (ho : findOrderByReservation db oc.reservation_id = some o) :
    create_order db oc =
      (.error (.conflict "An order already exists for this reservation."), db)
    ∧ responseStatus 201 (create_order db oc).1 = 409 := by
  have h : create_order db oc =
      (.error (.conflict "An order already exists for this reservation."), db) := by
    simp only [create_order, hr, ho]
    rw [if_neg (by simp [hst])]
  exact ⟨h, by rw [h]; rfl⟩

/-- C6: an order update whose supplied reservation_id differs from the
order's existing reservation_id fails with BadRequest (HTTP 400) and changes
nothing; an update can never reparent an order. -/
theorem update_order_rejects_reparenting (db : DB) (oid : Nat)
    (ou : OrderCreate) (ord : Order)
    (ho : db.orders.find? (fun o => o.id == oid) = some ord)
    (hne : ord.reservation_id ≠ ou.reservation_id) :
    update_order db oid ou =
      (.error (.badRequest "Reservation ID mismatch for this order."), db)
    ∧ responseStatus 200 (update_order db oid ou).1 = 400 := by
  have h : update_order db oid ou =
      (.error (.badRequest "Reservation ID mismatch for this order."), db) := by
    simp only [update_order, ho]
    rw [if_pos hne]
  exact ⟨h, by rw [h]; rfl⟩

/-- C9: `GET /api/reservations/{id}/order` returns HTTP 200 with a `null`
body whenever no order references the reservation (whether or not the
reservation exists), and the handler can never produce an error status such
as 404. -/
theorem order_by_reservation_null_not_404 (db : DB) (rid : Nat) :
    (findOrderByReservation db rid = none →
      get_order_by_reservation_id db rid = .ok none)
    ∧ responseStatus 200 (get_order_by_reservation_id db rid) = 200 := by
  constructor
  · intro h
    simp [get_order_by_reservation_id, h]
  · cases h : findOrderByReservation db rid with
    | none => simp [get_order_by_reservation_id, h, responseStatus]
    | some o => simp [get_order_by_reservation_id, h, responseStatus]

/-- C7: the total-revenue summary equals the sum of `amount` over the
records matching the inclusive optional date filter, and is `0` (not `null`,
not an error — the handler is total) when no record matches. -/
theorem revenue_summary_sum_and_empty (db : DB) (sd ed : Option Int) :
    get_total_revenue_summary db sd ed
      = ((db.revenue_records.filter
            (fun rr => inDateRange rr.record_date sd ed)).map
          (fun rr => rr.amount)).sum
    ∧ (db.revenue_records.filter (fun rr => inDateRange rr.record_date sd ed) = []
        → get_total_revenue_summary db sd ed = 0) := by
  constructor
  · cases h : db.revenue_records.filter (fun rr => inDateRange rr.record_date sd ed) with
    | nil => simp [get_total_revenue_summary, sqlSum, h]
    | cons a l => simp [get_total_revenue_summary, sqlSum, h]
  · intro h
    simp [get_total_revenue_summary, sqlSum, h]

/-- Inserting the order shell does not change the menu, so price lookups in
the transaction read the same snapshot as before the call. -/
theorem findMenuItemPrice_insertOrderShell (db : DB) (rid mid : Nat) :
    findMenuItemPrice (insertOrderShell db rid) mid = findMenuItemPrice db mid :=
  rfl

/-- C2: a successful order creation returns (and persists) an order whose
`total_amount` is exactly the sum of its items' subtotals, where each item's
`subtotal = price_at_order * quantity` and `price_at_order` is the menu
item's price in the pre-call state, snapshotted per item; the persisted
order row carries the same total and the persisted `order_items` rows for
the new order are exactly the returned items.  (The freshness hypotheses say
the id counter has not been reused, which the store guarantees.) -/
theorem create_order_total_consistency (db : DB) (oc : OrderCreate)
    (resp : OrderResponse) (db2 : DB)
    (h : create_order db oc = (.ok resp, db2))
    (hfreshO : ∀ o ∈ db.orders, o.id ≠ db.next_order_id)
    (hfreshI : ∀ it ∈ db.order_items, it.order_id ≠ db.next_order_id) :
    resp.total_amount = (resp.items.map (fun it => it.subtotal)).sum
    ∧ resp.items.map (fun it => it.subtotal)
        = resp.items.map (fun it => it.price_at_order * (it.quantity : ℚ))
    ∧ resp.items.map (fun it => findMenuItemPrice db it.menu_item_id)
        = resp.items.map (fun it => some it.price_at_order)
    ∧ resp.items.map (fun it => (it.menu_item_id, it.quantity))
        = oc.items.map (fun i => (i.menu_item_id, i.quantity))
    ∧ db2.orders.find? (fun o => o.id == resp.id)
        = some { id := resp.id, reservation_id := oc.reservation_id,
                 total_amount := resp.total_amount }
    ∧ db2.order_items.filter (fun it => it.order_id == resp.id) = resp.items := by
  rcases hE : findReservation db oc.reservation_id with _ | r
  · simp [create_order, hE] at h
  by_cases hst : r.status = ReservationStatus.completed
  swap
  · simp only [create_order, hE] at h
    rw [if_pos hst] at h
    simp at h
  rcases hO : findOrderByReservation db oc.reservation_id with _ | o
  swap
  · simp only [create_order, hE, hO] at h
    rw [if_neg (by simp [hst])] at h
    simp at h
  rcases hP : priceItems (insertOrderShell db oc.reservation_id)
      db.next_order_id oc.items with e | ⟨total, ps⟩
  · simp only [create_order, hE, hO, hP] at h
    rw [if_neg (by simp [hst])] at h
    simp at h
  simp only [create_order, hE, hO, hP] at h
  rw [if_neg (by simp [hst])] at h
  simp only [Prod.mk.injEq, Except.ok.injEq] at h
  obtain ⟨hresp, hdb2⟩ := h
  subst hdb2
  subst hresp
  obtain ⟨hT, hPt, hMap⟩ := priceItems_ok_spec _ _ _ _ _ hP
  have hIst := insertOrderItems_state ps (insertOrderShell db oc.reservation_id)
  have hIpw := insertOrderItems_pointwise ps (insertOrderShell db oc.reservation_id)
  dsimp only
  refine ⟨?_, ?_, ?_, ?_, ?_, ?_⟩
  · rw [insertOrderItems_subtotals, ← hT]
  · refine List.map_congr_left ?_
    intro it hit
    obtain ⟨p, hp, hoid, hmid, hqty, hprice, hsub⟩ := hIpw it hit
    obtain ⟨hps, _, _⟩ := hPt p hp
    rw [hsub, hprice, hqty]
    exact hps
  · refine List.map_congr_left ?_
    intro it hit
    obtain ⟨p, hp, hoid, hmid, hqty, hprice, hsub⟩ := hIpw it hit
    obtain ⟨_, hfind, _⟩ := hPt p hp
    rw [hmid, hprice, ← findMenuItemPrice_insertOrderShell db oc.reservation_id,
      hfind]
  · rw [insertOrderItems_menu_qty, hMap]
  · rw [updateOrderTotal, hIst.2.1]
    show ((db.orders ++ _).map _).find? _ = _
    rw [List.map_append, List.find?_append]
    have hnone : (db.orders.map
        (fun o => if o.id == db.next_order_id
          then { o with total_amount := total } else o)).find?
        (fun o => o.id == db.next_order_id) = none := by
      rw [List.find?_eq_none]
      intro x hx
      obtain ⟨o, ho', rfl⟩ := List.mem_map.mp hx
      have hid : (if o.id == db.next_order_id
          then { o with total_amount := total } else o).id = o.id := by
        split <;> rfl
      simp only [hid]
      simpa using hfreshO o ho'
    rw [hnone, Option.none_or]
    simp [List.find?_singleton]
  · have hoi : (updateOrderTotal ((insertOrderItems
        (insertOrderShell db oc.reservation_id) ps).1) db.next_order_id
          total).order_items
        = db.order_items ++ (insertOrderItems
            (insertOrderShell db oc.reservation_id) ps).2 := by
      rw [updateOrderTotal]
      exact hIst.1
    rw [hoi, List.filter_append]
    have h1 : db.order_items.filter
        (fun it => it.order_id == db.next_order_id) = [] := by
      rw [List.filter_eq_nil_iff]
      intro it hit
      simpa using hfreshI it hit
    have h2 : ((insertOrderItems (insertOrderShell db oc.reservation_id)
        ps).2).filter (fun it => it.order_id == db.next_order_id)
        = (insertOrderItems (insertOrderShell db oc.reservation_id) ps).2 := by
      rw [List.filter_eq_self]
      intro it hit
      obtain ⟨p, hp, hoid, _, _, _, _⟩ := hIpw it hit
      obtain ⟨_, _, hpo⟩ := hPt p hp
      simp [hoid, hpo]
    rw [h1, h2, List.nil_append]

/-- C10: order creation accepts an empty items list: for a completed
reservation with no existing order, a request with zero line items succeeds,
the returned order has `total_amount = 0` and no items, no `order_items`
rows are written (the batch insert is skipped), and the persisted order row
carries total 0. -/
theorem create_order_empty_items_ok (db : DB) (rid : Nat) (r : Reservation)
    (hr : findReservation db rid = some r)
    (hst : r.status = ReservationStatus.completed)
    (hno : findOrderByReservation db rid = none)
    (hfreshO : ∀ o ∈ db.orders, o.id ≠ db.next_order_id) :
    (create_order db ⟨rid, []⟩).1 =
      .ok { id := db.next_order_id, reservation_id := rid,
            total_amount := 0, items := [] }
    ∧ (create_order db ⟨rid, []⟩).2.order_items = db.order_items
    ∧ (create_order db ⟨rid, []⟩).2.orders
        = db.orders ++ [{ id := db.next_order_id, reservation_id := rid,
                          total_amount := 0 }] := by
  have hrun : create_order db ⟨rid, []⟩ =
      (.ok { id := db.next_order_id, reservation_id := rid,
             total_amount := 0, items := [] },
       updateOrderTotal (insertOrderShell db rid) db.next_order_id 0) := by
    simp only [create_order, hr, hno, priceItems, insertOrderItems]
    rw [if_neg (by simp [hst])]
  refine ⟨by rw [hrun], by rw [hrun]; rfl, ?_⟩
  rw [hrun]
  show (updateOrderTotal (insertOrderShell db rid) db.next_order_id 0).orders = _
  rw [updateOrderTotal]
  dsimp only [insertOrderShell]
  rw [List.map_append]
  congr 1
  · have hfix : ∀ o ∈ db.orders,
        (if o.id == db.next_order_id then { o with total_amount := (0 : ℚ) } else o)
          = id o := by
      intro o ho'
      rw [if_neg (by simpa using hfreshO o ho')]
      rfl
    rw [List.map_congr_left hfix, List.map_id]
  · simp

/-- C1 (amended): in `create_order`, steps 4–6 run in one transaction, but
step 3 — the insert of the order shell — is committed separately before the
items are processed.  When a later step fails (e.g., a referenced menu item
does not exist), the rollback only reaches the first commit: the new order
row (bound to the reservation, `total_amount` 0) remains persisted, while no
`order_items` rows from the failed attempt are persisted. -/
theorem create_order_failure_keeps_committed_shell (db : DB) (oc : OrderCreate)
    (r : Reservation) (e : ApiError)
    (hr : findReservation db oc.reservation_id = some r)
    (hst : r.status = ReservationStatus.completed)
    (hno : findOrderByReservation db oc.reservation_id = none)
    (hp : priceItems (insertOrderShell db oc.reservation_id) db.next_order_id
            oc.items = .error e) :
    create_order db oc = (.error e, insertOrderShell db oc.reservation_id)
    ∧ (insertOrderShell db oc.reservation_id).order_items = db.order_items
    ∧ (insertOrderShell db oc.reservation_id).orders
        = db.orders ++ [{ id := db.next_order_id,
                          reservation_id := oc.reservation_id,
                          total_amount := 0 }] := by
  refine ⟨?_, rfl, rfl⟩
  simp only [create_order, hr, hno, hp]
  rw [if_neg (by simp [hst])]

/-- C5 (amended): order update has full-replace semantics, but the delete of
the existing line items is committed on its own *before* the new list is
re-priced: on a failure (e.g. a new menu item id not found) the order's
original line items have already been deleted and stay deleted — only the
new inserts are rolled back — while on success the order holds exactly the
new item set and none of the old; items of other orders are never touched. -/
theorem update_order_replace_semantics (db : DB) (oid : Nat)
    (ou : OrderCreate) (ord : Order)
    (ho : db.orders.find? (fun o => o.id == oid) = some ord)
    (hrid : ord.reservation_id = ou.reservation_id) :
    ((update_order db oid ou).1.isOk = false →
      (update_order db oid ou).2
        = { db with order_items :=
              db.order_items.filter (fun it => it.order_id != oid) })
    ∧ ((update_order db oid ou).1.isOk = true →
        ((update_order db oid ou).2.order_items.filter
            (fun it => it.order_id == oid)).map
              (fun it => (it.menu_item_id, it.quantity))
          = ou.items.map (fun i => (i.menu_item_id, i.quantity))
        ∧ (update_order db oid ou).2.order_items.filter
            (fun it => it.order_id != oid)
          = db.order_items.filter (fun it => it.order_id != oid)) := by
  rcases hP : priceItems
      { db with order_items :=
          db.order_items.filter (fun it => it.order_id != oid) }
      oid ou.items with e | ⟨total, ps⟩
  · have hrun : update_order db oid ou =
        (.error e,
         { db with order_items :=
             db.order_items.filter (fun it => it.order_id != oid) }) := by
      simp only [update_order, ho, hP]
      rw [if_neg (by simp [hrid])]
    constructor
    · intro _
      rw [hrun]
    · intro hok
      rw [hrun] at hok
      simp [Except.isOk, Except.toBool] at hok
  · have hrun : update_order db oid ou =
        (.ok { id := oid, reservation_id := ord.reservation_id,
               total_amount := total,
               items := (insertOrderItems
                 { db with order_items :=
                     db.order_items.filter (fun it => it.order_id != oid) }
                 ps).2 },
         updateOrderTotal
           (insertOrderItems
             { db with order_items :=
                 db.order_items.filter (fun it => it.order_id != oid) }
             ps).1 oid total) := by
      simp only [update_order, ho, hP]
      rw [if_neg (by simp [hrid])]
    obtain ⟨hT, hPt, hMap⟩ := priceItems_ok_spec _ _ _ _ _ hP
    have hIst := insertOrderItems_state ps
      { db with order_items :=
          db.order_items.filter (fun it => it.order_id != oid) }
    have hIpw := insertOrderItems_pointwise ps
      { db with order_items :=
          db.order_items.filter (fun it => it.order_id != oid) }
    constructor
    · intro hok
      rw [hrun] at hok
      simp [Except.isOk, Except.toBool] at hok
    · intro _
      have hoi : (update_order db oid ou).2.order_items
          = db.order_items.filter (fun it => it.order_id != oid)
            ++ (insertOrderItems
                 { db with order_items :=
                     db.order_items.filter (fun it => it.order_id != oid) }
                 ps).2 := by
        rw [hrun]
        show (updateOrderTotal _ _ _).order_items = _
        rw [updateOrderTotal]
        exact hIst.1
      have hids : ∀ it ∈ (insertOrderItems
          { db with order_items :=
              db.order_items.filter (fun it => it.order_id != oid) }
          ps).2, it.order_id = oid := by
        intro it hit
        obtain ⟨p, hp, hoid', _, _, _, _⟩ := hIpw it hit
        obtain ⟨_, _, hpo⟩ := hPt p hp
        rw [hoid', hpo]
      constructor
      · rw [hoi, List.filter_append]
        have h1 : (db.order_items.filter (fun it => it.order_id != oid)).filter
            (fun it => it.order_id == oid) = [] := by
          rw [List.filter_eq_nil_iff]
          intro a ha
          have hmem := (List.mem_filter.mp ha).2
          simp at hmem ⊢
          exact hmem
        have h2 : ((insertOrderItems
            { db with order_items :=
                db.order_items.filter (fun it => it.order_id != oid) }
            ps).2).filter (fun it => it.order_id == oid)
            = (insertOrderItems
                { db with order_items :=
                    db.order_items.filter (fun it => it.order_id != oid) }
                ps).2 := by
          rw [List.filter_eq_self]
          intro a ha
          simp [hids a ha]
        rw [h1, h2, List.nil_append, insertOrderItems_menu_qty, hMap]
      · rw [hoi, List.filter_append]
        have h1 : (db.order_items.filter (fun it => it.order_id != oid)).filter
            (fun it => it.order_id != oid)
            = db.order_items.filter (fun it => it.order_id != oid) := by
          rw [List.filter_eq_self]
          intro a ha
          exact (List.mem_filter.mp ha).2
        have h2 : ((insertOrderItems
            { db with order_items :=
                db.order_items.filter (fun it => it.order_id != oid) }
            ps).2).filter (fun it => it.order_id != oid) = [] := by
          rw [List.filter_eq_nil_iff]
          intro a ha
          simp [hids a ha]
        rw [h1, h2, List.append_nil]

/-- Name comparison used by the statistics example. -/
theorem nameA_le_nameB : ("A" : String) ≤ "B" := by
  rw [String.le_iff_toList_le]
  decide

/-- C8: the most-sold-items endpoint returns at most 20 rows, sorted by
total quantity descending and then name ascending; before the limit the
list is a permutation of the grouped/summed rows (`mostSoldGroups`, which
joins order_items to menu items, orders and reservations and filters by the
reservation-date window); on the example state — A(qty 4+6=10), B(qty 10),
C(qty 5), A before B alphabetically, plus an out-of-window sale of C that
the filter drops — the result is [A, B, C]. -/
theorem most_sold_items_spec (db : DB) (sd ed : Option Int) :
    (get_most_sold_items db sd ed).length ≤ 20
    ∧ List.Sorted msOrder (get_most_sold_items db sd ed)
    ∧ (List.insertionSort msOrder (mostSoldGroups db sd ed)).Perm
        (mostSoldGroups db sd ed)
    ∧ get_most_sold_items msdb (some 0) (some 10)
        = [⟨1, "A", "m", 3, 10⟩, ⟨2, "B", "m", 4, 10⟩, ⟨3, "C", "m", 5, 5⟩] := by
  refine ⟨?_, ?_, List.perm_insertionSort msOrder _, ?_⟩
  · rw [get_most_sold_items, List.length_take]
    exact min_le_left _ _
  · exact List.Pairwise.sublist (List.take_sublist 20 _)
      (List.sorted_insertionSort msOrder _)
  · simp [get_most_sold_items, mostSoldGroups, joinedSoldRows, msdb,
      inDateRange, List.dedup, List.pwFilter, List.insertionSort,
      List.orderedInsert, msOrder, nameA_le_nameB]

/-! ## Counterexamples and witnesses on the concrete states -/

/-- C1 (counterexample): on `c1db` (completed reservation 1, empty menu),
creating an order whose line item references the missing menu item 7 fails
with 404 — yet the committed state afterwards contains the new order row
⟨5, 1, 0⟩, so a failing creation does not leave the store without a new
order row. -/
theorem create_order_partial_commit_cex :
    (create_order c1db ⟨1, [⟨7, 2⟩]⟩).1
      = .error (.notFound "Menu item not found.")
    ∧ c1db.orders = []
    ∧ (create_order c1db ⟨1, [⟨7, 2⟩]⟩).2.orders
      = [{ id := 5, reservation_id := 1, total_amount := 0 }] := by
  refine ⟨?_, rfl, ?_⟩ <;>
    simp [create_order, c1db, findReservation, findOrderByReservation,
      findMenuItemPrice, priceItems, insertOrderShell]

/-- C1 (witness): the amended theorem applied to `c1db` and the request with
the missing menu item 7. -/
theorem create_order_failure_keeps_committed_shell_witness :
    create_order c1db ⟨1, [⟨7, 2⟩]⟩
      = (.error (.notFound "Menu item not found."), insertOrderShell c1db 1)
    ∧ (insertOrderShell c1db 1).order_items = c1db.order_items
    ∧ (insertOrderShell c1db 1).orders
        = c1db.orders ++ [{ id := 5, reservation_id := 1, total_amount := 0 }] :=
  create_order_failure_keeps_committed_shell c1db ⟨1, [⟨7, 2⟩]⟩
    ⟨1, .completed, 0⟩ (.notFound "Menu item not found.") rfl rfl rfl rfl

/-- C2 (witness): the consistency theorem applied to the successful
creation `create_order wdb wreq`. -/
theorem create_order_total_consistency_witness :
    wresp.total_amount = (wresp.items.map (fun it => it.subtotal)).sum
    ∧ wresp.items.map (fun it => it.subtotal)
        = wresp.items.map (fun it => it.price_at_order * (it.quantity : ℚ))
    ∧ wresp.items.map (fun it => findMenuItemPrice wdb it.menu_item_id)
        = wresp.items.map (fun it => some it.price_at_order)
    ∧ wresp.items.map (fun it => (it.menu_item_id, it.quantity))
        = wreq.items.map (fun i => (i.menu_item_id, i.quantity))
    ∧ wdb2.orders.find? (fun o => o.id == wresp.id)
        = some { id := wresp.id, reservation_id := wreq.reservation_id,
                 total_amount := wresp.total_amount }
    ∧ wdb2.order_items.filter (fun it => it.order_id == wresp.id) = wresp.items :=
  create_order_total_consistency wdb wreq wresp wdb2
    (by simp [create_order, wdb, wreq, wresp, wdb2, findReservation,
          findOrderByReservation, findMenuItemPrice, priceItems,
          insertOrderShell, insertOrderItems, updateOrderTotal])
    (by simp [wdb]) (by simp [wdb])

/-- C3 (witness): the status check applied to the pending reservation of
`c3db`. -/
theorem create_order_rejects_uncompleted_witness :
    create_order c3db ⟨1, []⟩ =
      (.error (.badRequest "Order can only be created for completed reservations."), c3db)
    ∧ responseStatus 201 (create_order c3db ⟨1, []⟩).1 = 400 :=
  create_order_rejects_uncompleted c3db ⟨1, []⟩ ⟨1, .pending, 0⟩ rfl (by decide)

/-- C4 (counterexample): in `c4db2` reservation 1 already has an order (the
one created from `c4db0`), but because its status was meanwhile set back to
`pending`, the second creation request fails with 400 at the status check —
not with 409 Conflict as the claim states.  The state is unchanged. -/
theorem create_order_second_not_conflict_cex :
    (findOrderByReservation c4db2 1).isSome = true
    ∧ (create_order c4db2 c4req).1
      = .error (.badRequest "Order can only be created for completed reservations.")
    ∧ responseStatus 201 (create_order c4db2 c4req).1 = 400
    ∧ (create_order c4db2 c4req).2 = c4db2 := by
  have hc4 : c4db2 =
      { menu_items := [⟨1, "X", "m", 12⟩],
        reservations := [⟨1, .pending, 0⟩],
        orders := [⟨10, 1, 12⟩],
        order_items := [⟨100, 10, 1, 1, 12, 12⟩],
        revenue_records := [], next_order_id := 11,
        next_order_item_id := 101 } := by
    simp [c4db2, c4db0, c4req, create_order, update_reservation_status,
      findReservation, findOrderByReservation, findMenuItemPrice, priceItems,
      insertOrderShell, insertOrderItems, updateOrderTotal]
  refine ⟨?_, ?_, ?_, ?_⟩ <;>
    simp [hc4, create_order, c4req, findReservation, findOrderByReservation,
      responseStatus, ApiError.statusCode]

/-- C4 (witness): the amended conflict theorem applied to `c4wdb`, where the
reservation is still `completed` and already has an order. -/
theorem create_order_conflict_on_existing_order_witness :
    create_order c4wdb c4req =
      (.error (.conflict "An order already exists for this reservation."), c4wdb)
    ∧ responseStatus 201 (create_order c4wdb c4req).1 = 409 :=
  create_order_conflict_on_existing_order c4wdb c4req ⟨1, .completed, 0⟩
    ⟨10, 1, 12⟩ rfl rfl rfl

/-- C5 (counterexample): updating order 10 of `c5db` with a line list whose
menu item 99 does not exist fails with 404, but the order's original line
item ⟨100, ...⟩ has already been deleted and is gone from the committed
state — the original items are not still present on failure. -/
theorem update_order_lost_items_cex :
    (update_order c5db 10 ⟨1, [⟨99, 1⟩]⟩).1
      = .error (.notFound "Menu item not found.")
    ∧ c5db.order_items = [⟨100, 10, 1, 2, 12, 24⟩]
    ∧ (update_order c5db 10 ⟨1, [⟨99, 1⟩]⟩).2.order_items = [] := by
  refine ⟨?_, rfl, ?_⟩ <;>
    simp [update_order, c5db, findMenuItemPrice, priceItems]

/-- C5 (witness): the amended replace-semantics theorem applied to order 10
of `c5db` with the valid single-item list [(menu 1, qty 1)]. -/
theorem update_order_replace_semantics_witness :
    ((update_order c5db 10 ⟨1, [⟨1, 1⟩]⟩).1.isOk = false →
      (update_order c5db 10 ⟨1, [⟨1, 1⟩]⟩).2
        = { c5db with order_items :=
              c5db.order_items.filter (fun it => it.order_id != 10) })
    ∧ ((update_order c5db 10 ⟨1, [⟨1, 1⟩]⟩).1.isOk = true →
        ((update_order c5db 10 ⟨1, [⟨1, 1⟩]⟩).2.order_items.filter
            (fun it => it.order_id == 10)).map
              (fun it => (it.menu_item_id, it.quantity))
          = [⟨1, 1⟩]
        ∧ (update_order c5db 10 ⟨1, [⟨1, 1⟩]⟩).2.order_items.filter
            (fun it => it.order_id != 10)
          = c5db.order_items.filter (fun it => it.order_id != 10)) :=
  update_order_replace_semantics c5db 10 ⟨1, [⟨1, 1⟩]⟩ ⟨10, 1, 24⟩ rfl rfl

/-- C6 (witness): the reparenting check applied to order 10 of `c5db`
(reservation 1) with a request naming reservation 2. -/
theorem update_order_rejects_reparenting_witness :
    update_order c5db 10 ⟨2, []⟩ =
      (.error (.badRequest "Reservation ID mismatch for this order."), c5db)
    ∧ responseStatus 200 (update_order c5db 10 ⟨2, []⟩).1 = 400 :=
  update_order_rejects_reparenting c5db 10 ⟨2, []⟩ ⟨10, 1, 24⟩ rfl (by decide)

/-- C7 (witness): on `c7db` the window [10, 20] matches no record and the
summary is 0. -/
theorem revenue_summary_sum_and_empty_witness :
    c7db.revenue_records.filter
      (fun rr => inDateRange rr.record_date (some 10) (some 20)) = []
    ∧ get_total_revenue_summary c7db (some 10) (some 20) = 0 :=
  ⟨by simp [c7db, inDateRange],
   (revenue_summary_sum_and_empty c7db (some 10) (some 20)).2
     (by simp [c7db, inDateRange])⟩

/-- C9 (witness): no order references reservation 1 in `c9db`, and the
endpoint returns the ok/null outcome. -/
theorem order_by_reservation_null_not_404_witness :
    findOrderByReservation c9db 1 = none
    ∧ get_order_by_reservation_id c9db 1 = .ok none :=
  ⟨rfl, (order_by_reservation_null_not_404 c9db 1).1 rfl⟩

/-- C10 (witness): the empty-items theorem applied to the completed
reservation of `c1db` (empty menu is irrelevant: no item is priced). -/
theorem create_order_empty_items_ok_witness :
    (create_order c1db ⟨1, []⟩).1 =
      .ok { id := 5, reservation_id := 1, total_amount := 0, items := [] }
    ∧ (create_order c1db ⟨1, []⟩).2.order_items = c1db.order_items
    ∧ (create_order c1db ⟨1, []⟩).2.orders
        = c1db.orders ++ [{ id := 5, reservation_id := 1, total_amount := 0 }] :=
  create_order_empty_items_ok c1db 1 ⟨1, .completed, 0⟩ rfl rfl rfl
    (by simp [c1db])
